import Mathlib

/-
Verification of the command-based-framework scheduler core.

Shallow embedding of src/command_based_framework: actions.py, commands.py,
scheduler.py, subsystems.py.  Commands, actions and subsystems are identified
by their object identity, modelled as natural-number ids.  Python dicts keyed
by objects are modelled as insertion-ordered association lists; Python lists
as Lean lists.  Methods that can raise are modelled with Except or with an
Option PyErr component; user callbacks invoked by the scheduler are recorded
in an event trace.
-/

namespace CommandBasedFramework

/-- A command identity (Python object identity of a Command instance). -/
abbrev Cmd := Nat

/-- An action identity (Python object identity of an Action instance). -/
abbrev ActionId := Nat

/-- A subsystem identity (Python object identity of a Subsystem instance). -/
abbrev SubId := Nat

/-- The Condition enum from actions.py (five members, a closed set). -/
inductive Cond : Type
  | cancel_when_activated
  | toggle_when_activated
  | when_activated
  | when_deactivated
  | when_held
deriving DecidableEq, Repr, Fintype

/-- Python exceptions that the embedded code can raise. -/
inductive PyErr : Type
  | valueError (msg : String)
  | attributeError (attr : String)
  | schedulerExistsError (msg : String)
deriving DecidableEq, Repr

/-- User callbacks the scheduler can invoke, recorded as an event trace. -/
inductive Event : Type
  | pollCall (a : ActionId)
  | initCall (c : Cmd)
  | isFinishedCall (c : Cmd)
  | executeCall (c : Cmd)
  | endCall (c : Cmd) (interrupted : Bool)
  | handleExceptionCall (c : Cmd)
  | periodicCall (s : SubId)
deriving DecidableEq, Repr

/-- A per-action condition map: dict mapping Condition to a list of commands
(scheduler.py ConditionCommandType), as an insertion-ordered association
list. -/
abbrev CondMap := List (Cond × List Cmd)

/-- The binding registry: dict mapping Action to its condition map
(scheduler.py ActionStack), as an insertion-ordered association list. -/
abbrev ActionStackT := List (ActionId × CondMap)

/-- Lookup in an insertion-ordered association list: Python dict getitem /
the `in` test on keys. -/
def alookup {κ β : Type} [DecidableEq κ] (k : κ) : List (κ × β) → Option β
  | [] => none
  | p :: ps => if p.1 = k then some p.2 else alookup k ps

/-- Store into an insertion-ordered association list: Python dict setitem.
An existing key keeps its position; a new key is appended at the end,
matching dict insertion order. -/
def aset {κ β : Type} [DecidableEq κ] (k : κ) (v : β) : List (κ × β) → List (κ × β)
  | [] => [(k, v)]
  | p :: ps => if p.1 = k then (k, v) :: ps else p :: aset k v ps

/-- The instance state of a Scheduler object: its clock speed and its seven
stacks (scheduler.py attributes set by `_reset_all_stacks` and the
`clock_speed` setter).  Python sets are modelled as lists of ids; the
actions stack as the association-list registry. -/
structure SchedState : Type where
  clock_speed : ℚ
  all_stack : List Cmd
  actions_stack : ActionStackT
  incoming_stack : List Cmd
  scheduled_stack : List Cmd
  interrupted_stack : List Cmd
  ended_stack : List Cmd
  subsystem_stack : List SubId
deriving DecidableEq, Repr

/-- `Scheduler._reset_all_stacks` (scheduler.py 254-261): every stack is
reset to empty; the clock speed is untouched. -/
def reset_all_stacks (st : SchedState) : SchedState :=
  { st with
    all_stack := []
    actions_stack := []
    incoming_stack := []
    scheduled_stack := []
    interrupted_stack := []
    ended_stack := []
    subsystem_stack := [] }

/-- The `clock_speed` setter (scheduler.py 163-169): raises ValueError when
the new value is at or below zero, leaving the attribute untouched;
otherwise stores it.  The pair returns the raised exception, if any,
together with the object state afterwards. -/
def set_clock_speed (st : SchedState) (v : ℚ) : Option PyErr × SchedState :=
  if v ≤ 0 then
    (some (PyErr.valueError "clock speed must be at or above 0"), st)
  else
    (none, { st with clock_speed := v })

/-- The scheduler instance state produced by `Scheduler.__init__`
(scheduler.py 141-145): `self.clock_speed = 1 / 60` through the setter,
then `_reset_all_stacks`. -/
def initState : SchedState :=
  (set_clock_speed (reset_all_stacks
    { clock_speed := 1 / 60
      all_stack := []
      actions_stack := []
      incoming_stack := []
      scheduled_stack := []
      interrupted_stack := []
      ended_stack := []
      subsystem_stack := [] }) (1 / 60)).2

/-- `Scheduler.register_subsystem` (scheduler.py 211-218):
`self._subsystem_stack.add(subsystem)` — set insertion, a no-op when the
subsystem is already present. -/
def register_subsystem (st : SchedState) (s : SubId) : SchedState :=
  if s ∈ st.subsystem_stack then st
  else { st with subsystem_stack := st.subsystem_stack ++ [s] }

/-- `Scheduler._poll_actions` (scheduler.py 251-252): the body is `pass`,
so the state is unchanged and no callback is invoked. -/
def poll_actions (st : SchedState) : SchedState × List Event := (st, [])

/-- `Scheduler._schedule_default_commands` (scheduler.py 263-264): `pass`. -/
def schedule_default_commands (st : SchedState) : SchedState × List Event := (st, [])

/-- `Scheduler._cancel_commands` (scheduler.py 236-237): `pass`. -/
def cancel_commands (st : SchedState) : SchedState × List Event := (st, [])

/-- `Scheduler._init_commands` (scheduler.py 245-246): `pass`. -/
def init_commands (st : SchedState) : SchedState × List Event := (st, [])

/-- `Scheduler._execute_commands` (scheduler.py 239-240): `pass`. -/
def execute_commands (st : SchedState) : SchedState × List Event := (st, [])

/-- `Scheduler._execute_subsystems` (scheduler.py 242-243): `pass`.  Note
that `run_once` never calls this method. -/
def execute_subsystems (st : SchedState) : SchedState × List Event := (st, [])

/-- `Scheduler._update_stack` (scheduler.py 266-267): `pass`. -/
def update_stack (st : SchedState) : SchedState × List Event := (st, [])

/-- `Scheduler.run_once` (scheduler.py 220-227): calls, in order,
`_poll_actions`, `_schedule_default_commands`, `_cancel_commands`,
`_init_commands`, `_execute_commands`, `_update_stack`.  State is threaded
through the six phases and their event traces are concatenated. -/
def run_once (st : SchedState) : SchedState × List Event :=
  let r1 := poll_actions st
  let r2 := schedule_default_commands r1.1
  let r3 := cancel_commands r2.1
  let r4 := init_commands r3.1
  let r5 := execute_commands r4.1
  let r6 := update_stack r5.1
  (r6.1, r1.2 ++ r2.2 ++ r3.2 ++ r4.2 ++ r5.2 ++ r6.2)

/-- Count of periodic callbacks to subsystem `s` in an event trace. -/
def countPeriodic (s : SubId) (evs : List Event) : Nat :=
  evs.count (Event.periodicCall s)

/-- The class-level `_instance` slot of SchedulerMeta (scheduler.py 25,
108): either never set, or a weak reference to a scheduler object that is
alive or has been garbage-collected. -/
inductive InstSlot : Type
  | unset
  | ref (i : Nat) (alive : Bool)
deriving DecidableEq, Repr

/-- The `SchedulerMeta.instance` getter (scheduler.py 27-44): None when the
slot was never set, otherwise the result of dereferencing the weak
reference, which is None once the referent has been collected. -/
def instance_get : InstSlot → Option Nat
  | InstSlot.unset => none
  | InstSlot.ref i alive => if alive then some i else none

/-- The `SchedulerMeta.instance` setter (scheduler.py 46-53): raises
SchedulerExistsError when the getter currently resolves to a live scheduler
(any Scheduler object is truthy), otherwise stores a weak reference to the
new instance. -/
def instance_set (slot : InstSlot) (i : Nat) : Except PyErr InstSlot :=
  match instance_get slot with
  | some _ =>
      Except.error (PyErr.schedulerExistsError
        "a scheduler already exists, a new one cannot be created")
  | none => Except.ok (InstSlot.ref i true)

/-- `Scheduler.__init__` (scheduler.py 141-145): assigns
`Scheduler.instance = self` through the metaclass setter (which can raise),
then sets the clock speed to 1/60 and resets all stacks, yielding the
initial instance state. -/
def scheduler_init (slot : InstSlot) (i : Nat) : Except PyErr (InstSlot × SchedState) :=
  match instance_set slot i with
  | Except.error e => Except.error e
  | Except.ok slot2 => Except.ok (slot2, initState)

/-- Dropping every strong reference to the current scheduler instance: the
weak reference in the class slot no longer resolves (weakref semantics of
scheduler.py line 53). -/
def drop_instance : InstSlot → InstSlot
  | InstSlot.unset => InstSlot.unset
  | InstSlot.ref i _ => InstSlot.ref i false

/-- A command object (commands.py).  `Command.__init__` (lines 40-47)
ignores its `name` argument and stores nothing, so the instance attribute
dict starts and stays empty; attribute values that could ever be stored are
modelled as subsystem-id sets. -/
structure CommandObj : Type where
  id : Nat
  attrs : List (String × List SubId)
deriving DecidableEq, Repr

/-- `Command.__init__` (commands.py 40-47): the body only calls
`super().__init__()`; the `name` parameter is ignored and no instance
attribute is stored. -/
def command_init (i : Nat) (_name : Option String) : CommandObj :=
  { id := i, attrs := [] }

/-- `Command.add_requirements` (commands.py 49-57): the body is only a
docstring, so nothing is stored and the object is unchanged. -/
def add_requirements (c : CommandObj) (_subsystems : List SubId) : CommandObj := c

/-- Python attribute lookup on a Command instance.  The Command class
defines no data attribute or property named `requirements` or `name`
(commands.py defines only methods), so lookup succeeds only for instance
attributes stored by its own methods and raises AttributeError otherwise. -/
def pyGetAttr (c : CommandObj) (attr : String) : Except PyErr (List SubId) :=
  match alookup attr c.attrs with
  | some v => Except.ok v
  | none => Except.error (PyErr.attributeError attr)

/-- A subsystem object (subsystems.py): name and the two command slots set
by `Subsystem.__init__` (lines 29-45), with commands held by id. -/
structure SubsystemObj : Type where
  id : SubId
  name : String
  current_command : Option Nat
  default_command : Option Nat
deriving DecidableEq, Repr

/-- The `Subsystem.default_command` setter (subsystems.py 74-87):
`if command and self not in command.requirements:` raise ValueError (whose
message formats `command.name`), else store the command.  A None command is
falsy, so the check is skipped and None is stored.  For a non-None command
the membership test first evaluates `command.requirements`, and the raise
path evaluates `command.name`; either attribute lookup can itself raise. -/
def set_default_command (s : SubsystemObj) (command : Option CommandObj) :
    Except PyErr SubsystemObj :=
  match command with
  | none => Except.ok { s with default_command := none }
  | some c =>
      match pyGetAttr c "requirements" with
      | Except.error e => Except.error e
      | Except.ok reqs =>
          if s.id ∈ reqs then Except.ok { s with default_command := some c.id }
          else
            match pyGetAttr c "name" with
            | Except.error e => Except.error e
            | Except.ok _ =>
                Except.error (PyErr.valueError
                  "command must have this subsystem as a requirement before being assigned as a default")

/-- The behavior of user command callbacks: whether a given command raises
from its `end` method (the scheduler treats commands as opaque). -/
structure Env : Type where
  endRaises : Cmd → Bool

/-- A call to `command.end(interrupted=True)` from `Scheduler.cancel`: the
user body either returns normally or raises. -/
def cmd_end_call (env : Env) (c : Cmd) : Option PyErr :=
  if env.endRaises c then some (PyErr.valueError "test error") else none

/-- The loop body of `Scheduler.cancel` (scheduler.py 201-202):
`for command in commands: command.end(interrupted=True)`.  There is no
try/except, so the first exception propagates immediately, skipping the
remaining commands; each successful call is recorded in the trace. -/
def cancel_loop (env : Env) : List Cmd → Option PyErr × List Event
  | [] => (none, [])
  | c :: rest =>
      match cmd_end_call env c with
      | some e => (some e, [])
      | none =>
          let r := cancel_loop env rest
          (r.1, Event.endCall c true :: r.2)

/-- `Scheduler.cancel` (scheduler.py 188-203):
`commands = commands or self._all_stack` (an empty argument tuple is falsy),
then the end-call loop, then `self._reset_all_stacks()`.  When some `end`
raises, the exception propagates out of `cancel` and the reset line is
never reached, so the scheduler state is unchanged. -/
def cancel (env : Env) (st : SchedState) (cmds : List Cmd) :
    (Option PyErr × SchedState) × List Event :=
  let commands := if cmds.isEmpty then st.all_stack else cmds
  let r := cancel_loop env commands
  match r.1 with
  | some e => ((some e, st), r.2)
  | none => ((none, reset_all_stacks st), r.2)

/-- The inner loop of `Scheduler.bind_command` (scheduler.py 179-184):
`for idx, cmd in enumerate(cmdlist): if cmd == command: cmdlist.pop(idx);
break` — remove the first occurrence of the command from a list, keeping
the order of the remaining elements. -/
def removeFirstCmd (c : Cmd) : List Cmd → List Cmd
  | [] => []
  | x :: xs => if x = c then xs else x :: removeFirstCmd c xs

/-- The body of `Scheduler.bind_command` acting on the per-action condition
map (scheduler.py 179-185).  The loop over `items()` removes the first
occurrence of the command from every condition list (the per-key
reassignment `current_condition_stack[cond] = cmdlist` rewrites each
existing key in place, modelled by map); then
`setdefault(condition, []).append(command)` appends the command to the
condition list, creating the key at the end of the dict when absent. -/
def bind_inner (c : Cmd) (k : Cond) (m : CondMap) : CondMap :=
  match alookup k (m.map (fun p => (p.1, removeFirstCmd c p.2))) with
  | some l => aset k (l ++ [c]) (m.map (fun p => (p.1, removeFirstCmd c p.2)))
  | none => m.map (fun p => (p.1, removeFirstCmd c p.2)) ++ [(k, [c])]

/-- `Scheduler.bind_command` (scheduler.py 171-186).
`self._actions_stack.setdefault(action, {condition: [command]})` yields the
existing condition map, or inserts and yields the one-entry default; after
the inner mutation, `self._actions_stack[action] = current_condition_stack`
stores the map back at the same key position. -/
def bind_command (st : SchedState) (a : ActionId) (c : Cmd) (k : Cond) :
    SchedState :=
  { st with
    actions_stack :=
      aset a (bind_inner c k ((alookup a st.actions_stack).getD [(k, [c])]))
        st.actions_stack }

/-- The list of commands bound under action `a` and condition `k`: empty
when the action or the condition has no entry in the registry. -/
def listUnder (st : SchedState) (a : ActionId) (k : Cond) : List Cmd :=
  (alookup k ((alookup a st.actions_stack).getD [])).getD []

/-- A concrete scheduler state used to refute claim C6: command 1 is
tracked, one binding and one subsystem are registered; command 2 is not in
any population. -/
def st6 : SchedState :=
  { initState with
    all_stack := [1]
    actions_stack := [(0, [(Cond.when_activated, [1])])]
    incoming_stack := []
    scheduled_stack := [1]
    interrupted_stack := []
    ended_stack := []
    subsystem_stack := [4] }

/-- An environment in which no command raises from its end method. -/
def env6 : Env := { endRaises := fun _ => false }

/-- An environment in which command 1 raises ValueError from its end
method, as in the repository test for cancellation warnings. -/
def env7 : Env := { endRaises := fun c => c == 1 }

/-- A scheduler state tracking commands 1 and 2. -/
def st7 : SchedState := { initState with all_stack := [1, 2] }

/-- A concrete registry state used for claim C9: commands 1 and, after it,
2 bound under action 0 and condition when_activated, built by two
bind_command calls on a fresh scheduler. -/
def stC9 : SchedState :=
  bind_command (bind_command initState 0 1 Cond.when_activated) 0 2
    Cond.when_activated

end CommandBasedFramework

namespace CommandBasedFramework

/-- Projection helper: the binding registry of a freshly constructed
scheduler is empty. -/
theorem initState_actions_stack : initState.actions_stack = [] := by
  norm_num [initState, set_clock_speed, reset_all_stacks]

/-- Lookup after storing at the same key yields the stored value. -/
theorem alookup_aset_self {κ β : Type} [DecidableEq κ] (k : κ) (v : β)
    (l : List (κ × β)) : alookup k (aset k v l) = some v := by
  induction l with
  | nil => simp [aset, alookup]
  | cons p ps ih =>
      by_cases h : p.1 = k
      · simp [aset, h, alookup]
      · simp [aset, h, alookup, ih]

/-- Lookup at a different key is unaffected by a store. -/
theorem alookup_aset_ne {κ β : Type} [DecidableEq κ] (k k' : κ) (v : β)
    (l : List (κ × β)) (hne : k' ≠ k) :
    alookup k' (aset k v l) = alookup k' l := by
  induction l with
  | nil => simp [aset, alookup, Ne.symm hne]
  | cons p ps ih =>
      by_cases h : p.1 = k
      · simp [aset, h, alookup, Ne.symm hne]
      · simp [aset, h, alookup, ih]

/-- Lookup commutes with mapping a function over the values. -/
theorem alookup_map_snd {κ β γ : Type} [DecidableEq κ] (f : β → γ) (k : κ)
    (l : List (κ × β)) :
    alookup k (l.map (fun p => (p.1, f p.2))) = (alookup k l).map f := by
  induction l with
  | nil => simp [alookup]
  | cons p ps ih =>
      by_cases h : p.1 = k
      · simp [alookup, h]
      · simp [alookup, h, ih]

/-- Lookup in an appended association list tries the left part first. -/
theorem alookup_append {κ β : Type} [DecidableEq κ] (k : κ)
    (l1 l2 : List (κ × β)) :
    alookup k (l1 ++ l2) =
      match alookup k l1 with
      | some v => some v
      | none => alookup k l2 := by
  induction l1 with
  | nil => simp [alookup]
  | cons p ps ih =>
      by_cases h : p.1 = k
      · simp [alookup, h]
      · simp [alookup, h, ih]

/-- The source removal loop removes exactly the first occurrence. -/
theorem removeFirstCmd_eq_erase (c : Cmd) (l : List Cmd) :
    removeFirstCmd c l = l.erase c := by
  induction l with
  | nil => rfl
  | cons x xs ih =>
      by_cases h : x = c
      · simp [removeFirstCmd, List.erase_cons, h]
      · simp [removeFirstCmd, List.erase_cons, h, ih]

/-- Characterization of the condition lists under the rebound action after
bind_inner: the target condition list loses its first occurrence of the
command and gains it at the back; every other condition list just loses its
first occurrence of the command. -/
theorem alookup_bind_inner (c : Cmd) (k k' : Cond) (m : CondMap) :
    (alookup k' (bind_inner c k m)).getD [] =
      if k' = k then ((alookup k m).getD []).erase c ++ [c]
      else ((alookup k' m).getD []).erase c := by
  cases hk : alookup k m with
  | some l =>
      have h1 : alookup k (m.map (fun p => (p.1, removeFirstCmd c p.2))) =
          some (removeFirstCmd c l) := by
        rw [alookup_map_snd, hk]; rfl
      by_cases hkk : k' = k
      · subst hkk
        simp only [bind_inner, h1]
        rw [alookup_aset_self]
        simp [hk, removeFirstCmd_eq_erase]
      · simp only [bind_inner, h1]
        rw [alookup_aset_ne _ _ _ _ hkk, alookup_map_snd, if_neg hkk]
        cases alookup k' m with
        | none => simp
        | some l' => simp [removeFirstCmd_eq_erase]
  | none =>
      have h1 : alookup k (m.map (fun p => (p.1, removeFirstCmd c p.2))) =
          none := by
        rw [alookup_map_snd, hk]; rfl
      by_cases hkk : k' = k
      · subst hkk
        simp only [bind_inner, h1]
        rw [alookup_append, h1]
        simp [alookup, hk]
      · simp only [bind_inner, h1]
        rw [alookup_append, alookup_map_snd, if_neg hkk]
        cases alookup k' m with
        | none => simp [alookup, Ne.symm hkk]
        | some l' => simp [removeFirstCmd_eq_erase]

/-- Characterization of bind_command on the lists under the rebound
action. -/
theorem listUnder_bind_command (st : SchedState) (a : ActionId) (c : Cmd)
    (k k' : Cond) :
    listUnder (bind_command st a c k) a k' =
      if k' = k then (listUnder st a k).erase c ++ [c]
      else (listUnder st a k').erase c := by
  unfold listUnder bind_command
  dsimp only
  rw [alookup_aset_self]
  cases hst : alookup a st.actions_stack with
  | none =>
      simp only [Option.getD_some, Option.getD_none]
      rw [alookup_bind_inner]
      by_cases hkk : k' = k
      · subst hkk
        simp [alookup, List.erase_cons]
      · simp [alookup, Ne.symm hkk, hkk]
  | some m =>
      simp only [Option.getD_some]
      rw [alookup_bind_inner]

/-- Claim C1: a single call to run_once leaves every piece of scheduler
state unchanged (clock speed, the all/incoming/scheduled/interrupted/ended
populations, the binding registry and the subsystem set) and invokes no
user callback at all: the event trace is empty.  This holds because all six
phase methods called by run_once have `pass` bodies in the source. -/
theorem C1_run_once_frame (st : SchedState) : run_once st = (st, []) := rfl

/-- Claim C2 evidence: even for a subsystem that is registered with the
scheduler, run_once invokes its periodic callback zero times, not once as
the specification demands; run_once never calls the subsystem execution
phase and that phase is itself a `pass` body. -/
theorem C2_no_periodic_call (st : SchedState) (s : SubId) :
    s ∈ (register_subsystem st s).subsystem_stack ∧
      countPeriodic s (run_once (register_subsystem st s)).2 = 0 := by
  constructor
  · unfold register_subsystem
    by_cases h : s ∈ st.subsystem_stack
    · simp only [if_pos h]
      exact h
    · simp [h]
  · rfl

/-- Claim C10: setting the clock speed to a value at or below zero raises
ValueError and leaves the stored clock speed at its prior value; setting a
strictly positive value succeeds and stores it; the value established by
construction is 1/60. -/
theorem C10_clock_speed (st : SchedState) (v : ℚ) :
    (v ≤ 0 →
      set_clock_speed st v =
        (some (PyErr.valueError "clock speed must be at or above 0"), st)) ∧
    (0 < v →
      set_clock_speed st v = (none, { st with clock_speed := v })) ∧
    initState.clock_speed = 1 / 60 := by
  refine ⟨fun h => ?_, fun h => ?_, ?_⟩
  · simp [set_clock_speed, h]
  · simp [set_clock_speed, not_le.mpr h]
  · norm_num [initState, set_clock_speed]

/-- Witness for C10 at concrete inputs: setting -1 raises and keeps the
state, setting 2 succeeds, and the constructed default is 1/60. -/
theorem C10_clock_speed_witness :
    set_clock_speed initState (-1) =
      (some (PyErr.valueError "clock speed must be at or above 0"), initState) ∧
    set_clock_speed initState 2 = (none, { initState with clock_speed := 2 }) ∧
    initState.clock_speed = 1 / 60 :=
  ⟨(C10_clock_speed initState (-1)).1 (by norm_num),
   (C10_clock_speed initState 2).2.1 (by norm_num),
   (C10_clock_speed initState 2).2.2⟩

/-- Claim C3: while the class-level instance resolves to a live scheduler,
constructing a new Scheduler raises SchedulerExistsError; after every
strong reference to the existing instance is dropped, the instance
accessor yields None and construction succeeds, installing the new
instance and producing the initial scheduler state. -/
theorem C3_singleton (slot : InstSlot) (i j : Nat)
    (h : (instance_get slot).isSome) :
    scheduler_init slot i =
      Except.error (PyErr.schedulerExistsError
        "a scheduler already exists, a new one cannot be created") ∧
    instance_get (drop_instance slot) = none ∧
    scheduler_init (drop_instance slot) j =
      Except.ok (InstSlot.ref j true, initState) := by
  cases slot with
  | unset => simp [instance_get] at h
  | ref k alive =>
      cases alive with
      | false => simp [instance_get] at h
      | true =>
          refine ⟨?_, rfl, rfl⟩
          rfl

/-- Witness for C3: a live instance with id 0 blocks construction of
scheduler 1; after dropping it, scheduler 2 can be constructed. -/
theorem C3_singleton_witness :
    scheduler_init (InstSlot.ref 0 true) 1 =
      Except.error (PyErr.schedulerExistsError
        "a scheduler already exists, a new one cannot be created") ∧
    instance_get (drop_instance (InstSlot.ref 0 true)) = none ∧
    scheduler_init (drop_instance (InstSlot.ref 0 true)) 2 =
      Except.ok (InstSlot.ref 2 true, initState) :=
  C3_singleton (InstSlot.ref 0 true) 1 2 (by decide)

/-- Claim C4 evidence: for any command produced by the framework
constructor followed by add_requirements, assigning it as a default command
raises AttributeError (the requirements attribute was never stored), not
the ValueError configuration error the claim describes, and never succeeds;
assigning None does succeed. -/
theorem C4_default_command_attribute_error (s : SubsystemObj) (i : Nat)
    (nm : Option String) (subs : List SubId) :
    set_default_command s (some (add_requirements (command_init i nm) subs)) =
      Except.error (PyErr.attributeError "requirements") ∧
    set_default_command s none = Except.ok { s with default_command := none } :=
  ⟨rfl, rfl⟩

/-- Claim C5 evidence: add_requirements stores nothing — the command object
is returned unchanged — and reading the requirements attribute afterwards
raises AttributeError instead of yielding a set containing the given
subsystems. -/
theorem C5_add_requirements_stores_nothing (i : Nat) (nm : Option String)
    (subs : List SubId) :
    add_requirements (command_init i nm) subs = command_init i nm ∧
    pyGetAttr (add_requirements (command_init i nm) subs) "requirements" =
      Except.error (PyErr.attributeError "requirements") :=
  ⟨rfl, rfl⟩

/-- Counterexample to claim C6: cancelling the untracked command 2 is not a
no-op — its end(interrupted=True) callback is invoked, and the scheduler
state is not preserved: every stack, including the binding registry and the
subsystem set, is reset to empty. -/
theorem C6_cancel_untracked_counterexample :
    (2 ∉ st6.all_stack ∧ 2 ∉ st6.incoming_stack ∧ 2 ∉ st6.scheduled_stack ∧
      2 ∉ st6.interrupted_stack ∧ 2 ∉ st6.ended_stack) ∧
    (cancel env6 st6 [2]).2 = [Event.endCall 2 true] ∧
    (cancel env6 st6 [2]).1 = (none, reset_all_stacks st6) ∧
    (reset_all_stacks st6).actions_stack ≠ st6.actions_stack ∧
    (reset_all_stacks st6).subsystem_stack ≠ st6.subsystem_stack := by
  refine ⟨by decide, rfl, rfl, by decide, by decide⟩

/-- Claim C6 as amended: cancel on a single untracked command whose end
callback does not raise is not a no-op; it invokes end(interrupted=True) on
that command exactly once and resets every scheduler stack (all the
populations, the binding registry and the subsystem set) to empty. -/
theorem C6_cancel_untracked (env : Env) (st : SchedState) (c : Cmd)
    (_hc : c ∉ st.all_stack) (hr : env.endRaises c = false) :
    cancel env st [c] = ((none, reset_all_stacks st), [Event.endCall c true]) := by
  simp [cancel, cancel_loop, cmd_end_call, hr]

/-- Witness for the amended C6 at the concrete state st6 and the untracked
command 2. -/
theorem C6_cancel_untracked_witness :
    cancel env6 st6 [2] = ((none, reset_all_stacks st6), [Event.endCall 2 true]) :=
  C6_cancel_untracked env6 st6 2 (by decide) rfl

/-- Claim C8: in a registry where the command occurs at most once in each
condition list under the action (the invariant every bind_command-built
registry satisfies), binding the command under a new condition leaves it in
exactly one condition list under that action — the new condition list, with
one occurrence — while every other condition list merely loses its entry of
that command with the relative order of the remaining commands
preserved. -/
theorem C8_rebind_exclusive (st : SchedState) (a : ActionId) (c : Cmd)
    (k : Cond) (hwf : ∀ k2 : Cond, (listUnder st a k2).count c ≤ 1) :
    (listUnder (bind_command st a c k) a k).count c = 1 ∧
    (∀ k2 : Cond, k2 ≠ k → c ∉ listUnder (bind_command st a c k) a k2) ∧
    (∀ k2 : Cond, k2 ≠ k →
      listUnder (bind_command st a c k) a k2 = (listUnder st a k2).erase c) := by
  have hmain := listUnder_bind_command st a c k
  refine ⟨?_, ?_, ?_⟩
  · rw [hmain k, if_pos rfl, List.count_append, List.count_erase_self]
    have h1 : List.count c [c] = 1 := by simp
    have h2 := hwf k
    omega
  · intro k2 hk2
    rw [hmain k2, if_neg hk2]
    have h0 : ((listUnder st a k2).erase c).count c = 0 := by
      rw [List.count_erase_self]
      have := hwf k2
      omega
    exact List.count_eq_zero.mp h0
  · intro k2 hk2
    rw [hmain k2, if_neg hk2]

/-- Witness for C8 on a fresh scheduler: binding command 5 under
when_activated of action 0 puts it exactly there. -/
theorem C8_rebind_exclusive_witness :
    (listUnder (bind_command initState 0 5 Cond.when_activated) 0
      Cond.when_activated).count 5 = 1 ∧
    (∀ k2 : Cond, k2 ≠ Cond.when_activated →
      5 ∉ listUnder (bind_command initState 0 5 Cond.when_activated) 0 k2) ∧
    (∀ k2 : Cond, k2 ≠ Cond.when_activated →
      listUnder (bind_command initState 0 5 Cond.when_activated) 0 k2 =
        (listUnder initState 0 k2).erase 5) :=
  C8_rebind_exclusive initState 0 5 Cond.when_activated
    (fun k2 => by simp [listUnder, initState_actions_stack, alookup])

/-- The registry built by binding command 1 then command 2 under action 0
and condition when_activated. -/
theorem stC9_actions_stack :
    stC9.actions_stack = [(0, [(Cond.when_activated, [1, 2])])] := by
  simp [stC9, bind_command, bind_inner, alookup, aset, removeFirstCmd,
    initState_actions_stack]

/-- Counterexample to claim C9: with commands 1 and 2 bound under
when_activated in that order, rebinding command 1 under the same condition
does not leave the registry unchanged — the command is removed and
re-appended, moving it to the back of the list. -/
theorem C9_rebind_not_idempotent_counterexample :
    1 ∈ listUnder stC9 0 Cond.when_activated ∧
    (bind_command stC9 0 1 Cond.when_activated).actions_stack ≠
      stC9.actions_stack := by
  have h2 : (bind_command stC9 0 1 Cond.when_activated).actions_stack =
      [(0, [(Cond.when_activated, [2, 1])])] := by
    simp [bind_command, bind_inner, alookup, aset, removeFirstCmd,
      stC9_actions_stack]
  constructor
  · simp [listUnder, stC9_actions_stack, alookup]
  · rw [h2, stC9_actions_stack]
    decide

/-- Claim C9 as amended: when the command is already present in the list
for the given condition under the action (and, per the registry invariant,
under no other condition of that action), rebinding it under the same
condition removes its first occurrence and re-appends it at the end of
that list, leaving every other condition list unchanged; the registry is
therefore unchanged only when the command was already last. -/
theorem C9_rebind_moves_to_back (st : SchedState) (a : ActionId) (c : Cmd)
    (k : Cond) (_hmem : c ∈ listUnder st a k)
    (hother : ∀ k2 : Cond, k2 ≠ k → c ∉ listUnder st a k2) :
    listUnder (bind_command st a c k) a k = (listUnder st a k).erase c ++ [c] ∧
    (∀ k2 : Cond, k2 ≠ k →
      listUnder (bind_command st a c k) a k2 = listUnder st a k2) := by
  have hmain := listUnder_bind_command st a c k
  constructor
  · rw [hmain k, if_pos rfl]
  · intro k2 hk2
    rw [hmain k2, if_neg hk2, List.erase_of_not_mem (hother k2 hk2)]

/-- Witness for the amended C9 at the concrete registry with commands 1 and
2 bound under when_activated: rebinding command 1 yields the list with 1
moved to the back. -/
theorem C9_rebind_moves_to_back_witness :
    listUnder (bind_command stC9 0 1 Cond.when_activated) 0
      Cond.when_activated =
        (listUnder stC9 0 Cond.when_activated).erase 1 ++ [1] ∧
    (∀ k2 : Cond, k2 ≠ Cond.when_activated →
      listUnder (bind_command stC9 0 1 Cond.when_activated) 0 k2 =
        listUnder stC9 0 k2) :=
  C9_rebind_moves_to_back stC9 0 1 Cond.when_activated
    (by simp [listUnder, stC9_actions_stack, alookup])
    (fun k2 hk2 => by
      simp [listUnder, stC9_actions_stack, alookup, Ne.symm hk2])

/-- Claim C7 evidence: when the end callback of command 1 raises during
cancel, the exception propagates out of cancel itself, the end callback of
the remaining command 2 is never invoked (the trace is empty), and no
command is removed from tracking — the state is returned unchanged, with
no stack reset.  No runtime warning mechanism exists in the code. -/
theorem C7_cancel_propagates :
    cancel env7 st7 [1, 2] =
      ((some (PyErr.valueError "test error"), st7), []) := rfl

end CommandBasedFramework
